import Mathlib

/-!
Shallow embedding of ospd-ssh-keyscan (src/ospd_ssh_keyscan/wrapper.py).

The wrapper shells out to the ssh-keyscan tool and translates its
line-oriented output into result records (host details, logs, errors)
reported to a sink keyed by a scan id.  We embed:

  * the Python 2 string helpers the source relies on
    (str.splitlines and str.split with no argument);
  * the process invocation `subprocess.check_output`, modelled by its
    documented standard-library contract as a function from a tagged
    process outcome (launched with exit code and combined output, or
    launch failure) to either the captured output or a raised exception
    (OSError on launch failure, CalledProcessError on non-zero exit);
  * `check` (availability check, wrapper.py lines 75-87);
  * `exec_scan` (wrapper.py lines 89-139), split into the parsing loop
    `scanLoop` (lines 111-122) and the post-invocation processing
    `processResult` (lines 97-139, a function of the captured `result`
    value, which the source compares against None).

Side effects are made explicit: a run returns the ordered list of sink
calls it performed (every call uses the scan id the executor was given,
so the record type omits it) together with either a returned exit code
or the exception that escaped the executor.
-/

namespace OspdSshKeyscan

/-- Whitespace of Python 2 `str.split()`: `string.whitespace`,
that is tab, newline, vertical tab, form feed, carriage return, space. -/
def isPySpace (c : Char) : Bool :=
  c == ' ' || c == '\t' || c == '\n' || c == '\r' ||
  c == Char.ofNat 0x0b || c == Char.ofNat 0x0c

/-- Helper for `pySplit`: walk the characters, accumulating the current
token in reverse; whitespace ends a token, and empty tokens are dropped. -/
def pySplitAux : List Char → List Char → List String
  | [], [] => []
  | [], acc => [String.mk acc.reverse]
  | c :: rest, acc =>
    if isPySpace c then
      if acc.isEmpty then pySplitAux rest []
      else String.mk acc.reverse :: pySplitAux rest []
    else pySplitAux rest (c :: acc)

/-- Python 2 `line.split()` (no argument): split on runs of whitespace,
discarding leading and trailing whitespace, never yielding empty fields. -/
def pySplit (s : String) : List String :=
  pySplitAux s.data []

/-- Helper for `splitlines`: a line ends at `\n`, `\r` or the pair
`\r\n`; a trailing terminator opens no further empty line. -/
def splitlinesAux : List Char → List Char → List String
  | [], [] => []
  | [], acc => [String.mk acc.reverse]
  | '\r' :: '\n' :: rest, acc => String.mk acc.reverse :: splitlinesAux rest []
  | '\n' :: rest, acc => String.mk acc.reverse :: splitlinesAux rest []
  | '\r' :: rest, acc => String.mk acc.reverse :: splitlinesAux rest []
  | c :: rest, acc => splitlinesAux rest (c :: acc)

/-- Python 2 `result.splitlines()` on a plain (byte) string: the line
boundaries are `\n`, `\r` and `\r\n`.  Note `"a\n\nb"` yields an empty
middle line while a trailing newline yields no trailing empty line. -/
def splitlines (s : String) : List String :=
  splitlinesAux s.data []

/-- One call on the result sink of the external framework: host detail
(`add_scan_host_detail` with host, name, value), log (`add_scan_log`
with host, name, value) or error (`add_scan_error` with host, value). -/
inductive ScanEntry where
  | hostDetail (host name value : String)
  | log (host name value : String)
  | error (host value : String)
deriving DecidableEq, Repr

/-- The two scan options the wrapper reads.  `options.get('sshport')`
is `none` when the option is missing (Python `None`); `sshkeyaslog` is
only tested for truthiness, so a missing key and `False` coincide. -/
structure ScanOptions where
  sshport : Option Int
  sshkeyaslog : Bool
deriving DecidableEq, Repr

/-- Outcome of trying to start the external process, as in the design
model: either it launched and finished with an exit code and captured
combined output, or it could not be launched at all. -/
inductive ProcResult where
  | launched (exitCode : Int) (output : String)
  | launchFailed
deriving DecidableEq, Repr

/-- The exceptions that can escape the embedded code: TypeError from
formatting `'-p %d' % None` when sshport is missing, OSError and
CalledProcessError from `subprocess.check_output`, IndexError from
`line[0]` on an empty output line. -/
inductive ExecError where
  | typeError
  | osError
  | calledProcessError
  | indexError
deriving DecidableEq, Repr

/-- `subprocess.check_output`, by its standard-library contract: raises
OSError when the executable cannot be launched, raises
CalledProcessError when the process exits with a non-zero status, and
otherwise returns the captured output. -/
def check_output (proc : ProcResult) : Except ExecError String :=
  match proc with
  | .launchFailed => Except.error ExecError.osError
  | .launched code out =>
    if code = 0 then Except.ok out else Except.error ExecError.calledProcessError

/-- wrapper.py lines 75-87: invoke the tool with no arguments; OSError
means absent (return False), CalledProcessError is swallowed (the tool
is present, merely unhappy without a parameter); return True. -/
def check (proc : ProcResult) : Bool :=
  match check_output proc with
  | Except.error ExecError.osError => false
  | _ => true

/-- `'%d %s %s' % (port, keytype, key)` of wrapper.py line 121. -/
def keyValue (port : Int) (keytype key : String) : String :=
  s!"{port} {keytype} {key}"

/-- The summary log text of wrapper.py line 128, with `n` the length of
`key_data`. -/
def summaryMsg (n : Nat) (port : Int) : String :=
  s!"Via ssh-keyscan {n} public ssh keys were found at port {port}."

/-- The aggregated parse-error text of wrapper.py line 133. -/
def parseErrMsg (parse_errors : List String) : String :=
  "The following lines caused parse errors:\n\n" ++ String.intercalate "\n" parse_errors

/-- The verbatim key-dump text of wrapper.py line 137. -/
def dumpMsg (key_data : List String) : String :=
  "Via ssh-keyscan found keys:\n\n" ++ String.intercalate "\n" key_data

/-- wrapper.py line 99. -/
def problemMsg : String := "A problem occurred trying to execute 'ssh-keyscan'."

/-- wrapper.py line 101. -/
def emptyMsg : String := "The result of 'ssh-keyscan' was empty."

/-- Outcome of the parsing loop: either it ran to completion with the
host-detail calls it issued and the accumulators `key_data` and
`parse_errors`, or `line[0]` raised IndexError on an empty line after
issuing the given host-detail calls. -/
inductive LoopOut where
  | ok (entries : List ScanEntry) (key_data parse_errors : List String)
  | indexError (entries : List ScanEntry)
deriving DecidableEq, Repr

/-- wrapper.py lines 111-122, the `for line in result.splitlines()`
loop: an empty line faults at `line[0]` (IndexError, not caught); a
line whose first character is `#` is skipped; `line.split()` must give
exactly three fields (else ValueError, caught: the raw line goes to
`parse_errors`); a parsed line issues one host-detail call attributed
to the parsed host and the raw line goes to `key_data`. -/
def scanLoop (port : Int) : List String → LoopOut
  | [] => .ok [] [] []
  | line :: rest =>
    if line.isEmpty then .indexError []
    else if line.front == '#' then scanLoop port rest
    else
      match pySplit line with
      | [host, keytype, key] =>
        match scanLoop port rest with
        | .ok es kd pe =>
          .ok (ScanEntry.hostDetail host "ssh-key" (keyValue port keytype key) :: es)
            (line :: kd) pe
        | .indexError es =>
          .indexError (ScanEntry.hostDetail host "ssh-key" (keyValue port keytype key) :: es)
      | _ =>
        match scanLoop port rest with
        | .ok es kd pe => .ok es kd (line :: pe)
        | .indexError es => .indexError es

/-- wrapper.py lines 97-139: everything after the process invocation,
as a function of the captured `result` (the source tests it against
None).  Returns the ordered sink calls and either the returned exit
code (2 on the None branch, 1 otherwise) or the escaped IndexError. -/
def processResult (port : Int) (sshkeyaslog : Bool) (target : String)
    (result : Option String) : List ScanEntry × Except ExecError Int :=
  match result with
  | none =>
    ([ScanEntry.error target problemMsg, ScanEntry.error target emptyMsg], Except.ok 2)
  | some res =>
    match scanLoop port (splitlines res) with
    | .indexError es => (es, Except.error ExecError.indexError)
    | .ok es kd pe =>
      let es1 := es ++ [ScanEntry.log target "ssh-keyscan summary" (summaryMsg kd.length port)]
      let es2 := if pe.length > 0 then es1 ++ [ScanEntry.error target (parseErrMsg pe)] else es1
      let es3 := if sshkeyaslog then
          es2 ++ [ScanEntry.log target "ssh-keyscan key dump" (dumpMsg kd)]
        else es2
      (es3, Except.ok 1)

set_option linter.unusedVariables false in
/-- wrapper.py lines 89-139 (`exec_scan`): read the sshport option (a
missing value makes `'-p %d' % port` raise TypeError before any
invocation), call `check_output` (whose exceptions are not caught), and
process the captured result.  The scan id tags every sink call
uniformly, so it does not appear in the entries. -/
def exec_scan (options : ScanOptions) (scan_id target : String) (proc : ProcResult) :
    List ScanEntry × Except ExecError Int :=
  match options.sshport with
  | none => ([], Except.error ExecError.typeError)
  | some port =>
    match check_output proc with
    | Except.error e => ([], Except.error e)
    | Except.ok result => processResult port options.sshkeyaslog target (some result)

/-- Specification-side predicate: the line is non-empty, not a comment,
and splits into exactly three whitespace fields, so the loop parses it. -/
def isGoodLine (l : String) : Bool :=
  !l.isEmpty && !(l.front == '#') && (pySplit l).length == 3

/-- Specification-side predicate: the line is non-empty, not a comment,
and fails to split into exactly three fields, so it is a parse error. -/
def isBadLine (l : String) : Bool :=
  !l.isEmpty && !(l.front == '#') && !((pySplit l).length == 3)

/-- Specification-side description of the loop, per line: the one
host-detail call a line produces, if any — name `ssh-key`, value
`<port> <keytype> <key>`, attributed to the parsed host field. -/
def detailFor (port : Int) (l : String) : Option ScanEntry :=
  if l.isEmpty then none
  else if l.front == '#' then none
  else
    match pySplit l with
    | [host, keytype, key] => some (ScanEntry.hostDetail host "ssh-key" (keyValue port keytype key))
    | _ => none

/-- Whether a sink call is a host-detail record. -/
def isHostDetail : ScanEntry → Bool
  | .hostDetail _ _ _ => true
  | _ => false

/-- Whether a sink call is the summary log entry for `target`. -/
def isSummaryLog (target : String) : ScanEntry → Bool
  | .log h n _ => h == target && n == "ssh-keyscan summary"
  | _ => false

/-- Whether a sink call is the verbatim key-dump log entry for `target`. -/
def isDumpLog (target : String) : ScanEntry → Bool
  | .log h n _ => h == target && n == "ssh-keyscan key dump"
  | _ => false

/-- Whether a sink call is an error record attributed to `target`. -/
def isErrorEntry (target : String) : ScanEntry → Bool
  | .error h _ => h == target
  | _ => false

instance : DecidableEq (Except ExecError Int) := fun a b =>
  match a, b with
  | Except.ok x, Except.ok y => decidable_of_iff (x = y) (by simp)
  | Except.error x, Except.error y => decidable_of_iff (x = y) (by simp)
  | Except.ok _, Except.error _ => isFalse (by simp)
  | Except.error _, Except.ok _ => isFalse (by simp)

example : pySplit "  host1  ssh-rsa  AAAA " = ["host1", "ssh-rsa", "AAAA"] := by decide

example : splitlines "a\r\nb\n\nc\n" = ["a", "b", "", "c"] := by decide

example : splitlines "" = [] := by decide

example : scanLoop 22 ["# c", "h k v", "bad"] =
    .ok [ScanEntry.hostDetail "h" "ssh-key" "22 k v"] ["h k v"] ["bad"] := by decide

example : processResult 22 false "t" (some "\n") = ([], Except.error ExecError.indexError) := by
  decide

/-- Every sink call issued by the parsing loop is a host-detail record,
and a host-detail record is neither a log nor an error record. -/
theorem hostDetail_not_other (t : String) (e : ScanEntry) (h : isHostDetail e = true) :
    isSummaryLog t e = false ∧ isDumpLog t e = false ∧ isErrorEntry t e = false := by
  cases e <;> simp_all [isHostDetail, isSummaryLog, isDumpLog, isErrorEntry]

/-- Characterization of a completed run of the parsing loop: the
host-detail calls are exactly one per parsed line via `detailFor`,
`key_data` collects the parsed lines, `parse_errors` the malformed
ones, both in input order; there are as many host-detail calls as
parsed lines and nothing but host-detail calls. -/
theorem scanLoop_ok_char (port : Int) :
    ∀ lines es kd pe, scanLoop port lines = .ok es kd pe →
      es = lines.filterMap (detailFor port) ∧
      kd = lines.filter isGoodLine ∧
      pe = lines.filter isBadLine ∧
      es.length = kd.length ∧
      (∀ e ∈ es, isHostDetail e = true) := by
  intro lines
  induction lines with
  | nil =>
    intro es kd pe h
    simp only [scanLoop] at h
    cases h
    simp
  | cons line rest ih =>
    intro es kd pe h
    simp only [scanLoop] at h
    by_cases he : line.isEmpty = true
    · simp [he] at h
    · simp only [he] at h
      rw [if_neg (by simp [he])] at h
      by_cases hc : (line.front == '#') = true
      · rw [if_pos (by simp [hc])] at h
        obtain ⟨h1, h2, h3, h4, h5⟩ := ih es kd pe h
        refine ⟨?_, ?_, ?_, h4, h5⟩ <;>
          simp [List.filterMap_cons, List.filter_cons, detailFor, isGoodLine, isBadLine,
            he, hc, h1, h2, h3]
      · rw [if_neg (by simp [hc])] at h
        rcases hs : pySplit line with _ | ⟨a, _ | ⟨b, _ | ⟨c, _ | ⟨d, tl⟩⟩⟩⟩ <;>
          rw [hs] at h
        · cases hr : scanLoop port rest <;> rw [hr] at h <;> cases h
          obtain ⟨h1, h2, h3, h4, h5⟩ := ih _ _ _ hr
          refine ⟨?_, ?_, ?_, h4, h5⟩ <;>
            simp [List.filterMap_cons, List.filter_cons, detailFor, isGoodLine, isBadLine,
              he, hc, hs, h1, h2, h3]
        · cases hr : scanLoop port rest <;> rw [hr] at h <;> cases h
          obtain ⟨h1, h2, h3, h4, h5⟩ := ih _ _ _ hr
          refine ⟨?_, ?_, ?_, h4, h5⟩ <;>
            simp [List.filterMap_cons, List.filter_cons, detailFor, isGoodLine, isBadLine,
              he, hc, hs, h1, h2, h3]
        · cases hr : scanLoop port rest <;> rw [hr] at h <;> cases h
          obtain ⟨h1, h2, h3, h4, h5⟩ := ih _ _ _ hr
          refine ⟨?_, ?_, ?_, h4, h5⟩ <;>
            simp [List.filterMap_cons, List.filter_cons, detailFor, isGoodLine, isBadLine,
              he, hc, hs, h1, h2, h3]
        · cases hr : scanLoop port rest <;> rw [hr] at h <;> cases h
          obtain ⟨h1, h2, h3, h4, h5⟩ := ih _ _ _ hr
          refine ⟨?_, ?_, ?_, ?_, ?_⟩
          · simp [List.filterMap_cons, detailFor, he, hc, hs, h1]
          · simp [List.filter_cons, isGoodLine, he, hc, hs, h2]
          · simp [List.filter_cons, isBadLine, he, hc, hs, h3]
          · simp [List.filter_cons, isGoodLine, he, hc, hs, h4]
          · intro e hmem
            rcases List.mem_cons.mp hmem with rfl | hmem
            · rfl
            · exact h5 e hmem
        · cases hr : scanLoop port rest <;> rw [hr] at h <;> cases h
          obtain ⟨h1, h2, h3, h4, h5⟩ := ih _ _ _ hr
          refine ⟨?_, ?_, ?_, h4, h5⟩ <;>
            simp [List.filterMap_cons, List.filter_cons, detailFor, isGoodLine, isBadLine,
              he, hc, hs, h1, h2, h3]

/-- The parsing loop completes (no IndexError) when no output line is
empty. -/
theorem scanLoop_total (port : Int) :
    ∀ lines, (∀ l ∈ lines, l.isEmpty = false) →
      ∃ es kd pe, scanLoop port lines = .ok es kd pe := by
  intro lines
  induction lines with
  | nil => exact fun _ => ⟨[], [], [], rfl⟩
  | cons line rest ih =>
    intro hne
    obtain ⟨es, kd, pe, hr⟩ := ih fun l hl => hne l (List.mem_cons_of_mem _ hl)
    have he : line.isEmpty = false := hne line (List.mem_cons_self _ _)
    simp only [scanLoop, he]
    rw [if_neg (by simp [he])]
    by_cases hc : (line.front == '#') = true
    · rw [if_pos (by simp [hc])]
      exact ⟨es, kd, pe, hr⟩
    · rw [if_neg (by simp [hc])]
      rcases hs : pySplit line with _ | ⟨a, _ | ⟨b, _ | ⟨c, _ | ⟨d, tl⟩⟩⟩⟩ <;>
        rw [hr] <;> exact ⟨_, _, _, rfl⟩

/-- Decomposition of a normally returning run of the processing phase:
the loop completed, the exit code is 1, and the sink calls are the
loop's host details, then the summary log, then the optional aggregated
parse-error entry, then the optional key dump. -/
theorem processResult_ok (port : Int) (aslog : Bool) (target res : String)
    (es : List ScanEntry) (c : Int)
    (h : processResult port aslog target (some res) = (es, Except.ok c)) :
    ∃ es0 kd pe, scanLoop port (splitlines res) = .ok es0 kd pe ∧
      c = 1 ∧
      es = es0 ++ [ScanEntry.log target "ssh-keyscan summary" (summaryMsg kd.length port)] ++
        (if pe.length > 0 then [ScanEntry.error target (parseErrMsg pe)] else []) ++
        (if aslog then [ScanEntry.log target "ssh-keyscan key dump" (dumpMsg kd)] else []) := by
  simp only [processResult] at h
  cases hs : scanLoop port (splitlines res) with
  | indexError es' => rw [hs] at h; cases h
  | ok es0 kd pe =>
    rw [hs] at h
    refine ⟨es0, kd, pe, rfl, ?_, ?_⟩
    · have := congrArg Prod.snd h
      simpa using this.symm
    · have := congrArg Prod.fst h
      simp only at this
      rw [← this]
      by_cases hpe : pe.length > 0 <;> by_cases ha : aslog <;>
        simp [hpe, ha, List.append_assoc]

/-- The sink-call trace of a normally returning processing run, seen
through the record filters: the host details are one per parsed line,
the summary log is unique and follows all of them, the error records
are exactly the optional aggregated parse-error entry, and the dump log
is exactly the optional verbatim key dump. -/
theorem processResult_filters (port : Int) (aslog : Bool) (target res : String)
    (es : List ScanEntry) (c : Int)
    (h : processResult port aslog target (some res) = (es, Except.ok c)) :
    es.filter isHostDetail = (splitlines res).filterMap (detailFor port) ∧
    (es.filter isHostDetail).length = ((splitlines res).filter isGoodLine).length ∧
    es.filter (isSummaryLog target) =
      [ScanEntry.log target "ssh-keyscan summary"
        (summaryMsg ((splitlines res).filter isGoodLine).length port)] ∧
    es.filter (isErrorEntry target) =
      (if ((splitlines res).filter isBadLine).length > 0 then
        [ScanEntry.error target (parseErrMsg ((splitlines res).filter isBadLine))]
      else []) ∧
    es.filter (isDumpLog target) =
      (if aslog then
        [ScanEntry.log target "ssh-keyscan key dump"
          (dumpMsg ((splitlines res).filter isGoodLine))]
      else []) ∧
    ∃ post, es = es.filter isHostDetail ++
      ScanEntry.log target "ssh-keyscan summary"
        (summaryMsg ((splitlines res).filter isGoodLine).length port) :: post := by
  obtain ⟨es0, kd, pe, hs, hc, hes⟩ := processResult_ok port aslog target res es c h
  obtain ⟨h1, h2, h3, h4, h5⟩ := scanLoop_ok_char port (splitlines res) es0 kd pe hs
  have hsum : ("ssh-keyscan summary" == "ssh-keyscan key dump") = false := by decide
  have hdump : ("ssh-keyscan key dump" == "ssh-keyscan summary") = false := by decide
  have h0hd : es0.filter isHostDetail = es0 := List.filter_eq_self.mpr h5
  have h0sum : es0.filter (isSummaryLog target) = [] :=
    List.filter_eq_nil_iff.mpr fun e he => by
      simp [(hostDetail_not_other target e (h5 e he)).1]
  have h0dmp : es0.filter (isDumpLog target) = [] :=
    List.filter_eq_nil_iff.mpr fun e he => by
      simp [(hostDetail_not_other target e (h5 e he)).2.1]
  have h0err : es0.filter (isErrorEntry target) = [] :=
    List.filter_eq_nil_iff.mpr fun e he => by
      simp [(hostDetail_not_other target e (h5 e he)).2.2]
  have hfd : es.filter isHostDetail = es0 := by
    rw [hes]
    simp only [List.filter_append, h0hd]
    by_cases hpe : pe.length > 0 <;> by_cases ha : aslog <;>
      simp [hpe, ha, List.filter_cons, isHostDetail]
  refine ⟨?_, ?_, ?_, ?_, ?_, ?_⟩
  · rw [hfd, h1]
  · rw [hfd, ← h2, h4]
  · rw [hes]
    simp only [List.filter_append, h0sum]
    rw [← h2]
    by_cases hpe : pe.length > 0 <;> by_cases ha : aslog <;>
      simp [hpe, ha, List.filter_cons, isSummaryLog, beq_self_eq_true, hsum]
  · rw [hes]
    simp only [List.filter_append, h0err]
    rw [← h3]
    by_cases hpe : pe.length > 0 <;> by_cases ha : aslog <;>
      simp [hpe, ha, List.filter_cons, isErrorEntry, beq_self_eq_true]
  · rw [hes]
    simp only [List.filter_append, h0dmp]
    rw [← h2]
    by_cases hpe : pe.length > 0 <;> by_cases ha : aslog <;>
      simp [hpe, ha, List.filter_cons, isDumpLog, beq_self_eq_true, hdump]
  · refine ⟨(if pe.length > 0 then [ScanEntry.error target (parseErrMsg pe)] else []) ++
      (if aslog then [ScanEntry.log target "ssh-keyscan key dump" (dumpMsg kd)] else []), ?_⟩
    rw [hfd, ← h2, hes]
    simp [List.append_assoc, h4]

/-- C1 (amended): for every run of the executor's processing phase on
a non-null captured output that completes without raising
(equivalently, no output line is empty), exactly one summary log entry
attributed to `target` is reported, stating the count of successfully
parsed keys and the scanned port, and it comes after all host-detail
calls; this holds also when zero non-comment lines (zero keys) were
found.  The unamended claim fails when the output contains an empty
line: the loop raises IndexError and no summary is reported. -/
theorem exec_scan_summary_unique (port : Int) (aslog : Bool) (target res : String)
    (es : List ScanEntry) (c : Int)
    (h : processResult port aslog target (some res) = (es, Except.ok c)) :
    es.filter (isSummaryLog target) =
      [ScanEntry.log target "ssh-keyscan summary"
        (summaryMsg (es.filter isHostDetail).length port)] ∧
    ∃ post, es = es.filter isHostDetail ++
      ScanEntry.log target "ssh-keyscan summary"
        (summaryMsg (es.filter isHostDetail).length port) :: post := by
  obtain ⟨_, hlen, hsum, _, _, hpost⟩ := processResult_filters port aslog target res es c h
  rw [hlen]
  exact ⟨hsum, hpost⟩

/-- Witness for C1's theorem at output `"h k v"`, port 5: one key is
parsed and the single summary log entry follows the host detail. -/
theorem exec_scan_summary_unique_w :
    (processResult 5 false "t1" (some "h k v")).1.filter (isSummaryLog "t1") =
      [ScanEntry.log "t1" "ssh-keyscan summary"
        (summaryMsg ((processResult 5 false "t1" (some "h k v")).1.filter
          isHostDetail).length 5)] :=
  (exec_scan_summary_unique 5 false "t1" "h k v"
    (processResult 5 false "t1" (some "h k v")).1 1 (by decide)).1

/-- C1 counterexample: the captured output `"\n"` is not null, yet its
single (empty) line makes `line[0]` raise IndexError, so no summary
log entry at all is reported for the target. -/
theorem summary_missing_on_empty_line :
    (exec_scan ⟨some 22, false⟩ "s1" "t1" (ProcResult.launched 0 "\n")).1.filter
        (isSummaryLog "t1") = [] ∧
    (exec_scan ⟨some 22, false⟩ "s1" "t1" (ProcResult.launched 0 "\n")).2 =
      Except.error ExecError.indexError := by decide

/-- C2 (amended): when the processing phase completes without raising,
the host-detail calls are exactly one per output line that is
non-empty, does not begin with `#`, and splits into exactly three
whitespace fields, in line order; each such line contributes the entry
with attribute name "ssh-key" and value "<port> <keytype> <key>",
attributed to the parsed host field (which may differ from target).
The unamended claim fails because a line beginning with `#` is skipped
even when it splits into exactly three fields. -/
theorem exec_scan_detail_per_parsed_line (port : Int) (aslog : Bool) (target res : String)
    (es : List ScanEntry) (c : Int)
    (h : processResult port aslog target (some res) = (es, Except.ok c)) :
    es.filter isHostDetail = (splitlines res).filterMap (detailFor port) ∧
    ∀ l host keytype key, l.isEmpty = false → (l.front == '#') = false →
      pySplit l = [host, keytype, key] →
      detailFor port l =
        some (ScanEntry.hostDetail host "ssh-key" (keyValue port keytype key)) := by
  obtain ⟨hdet, _, _, _, _, _⟩ := processResult_filters port aslog target res es c h
  refine ⟨hdet, ?_⟩
  intro l host keytype key he hc hs
  simp [detailFor, he, hc, hs]

/-- Witness for C2's theorem at output `"host1 ssh-rsa AAAA"`. -/
theorem exec_scan_detail_per_parsed_line_w :
    (processResult 9 false "t2" (some "host1 ssh-rsa AAAA")).1.filter isHostDetail =
      (splitlines "host1 ssh-rsa AAAA").filterMap (detailFor 9) :=
  (exec_scan_detail_per_parsed_line 9 false "t2" "host1 ssh-rsa AAAA"
    (processResult 9 false "t2" (some "host1 ssh-rsa AAAA")).1 1 (by decide)).1

/-- C2 counterexample: the line "# a b" splits on whitespace into
exactly three fields, yet the executor issues no host-detail call for
it — the comment check on the first character precedes the split. -/
theorem comment_line_three_fields_no_detail :
    pySplit "# a b" = ["#", "a", "b"] ∧
    (exec_scan ⟨some 22, false⟩ "s2" "t2" (ProcResult.launched 0 "# a b")).1.filter
      isHostDetail = [] := by decide

/-- C3 (amended): when the processing phase completes without raising
(no empty line), each non-comment line that does not split into exactly
three fields yields no host-detail entry — the details are one per
well-formed line — processing covers all lines, and the error records
attributed to target are exactly one aggregated entry holding all
offending raw lines joined by newlines (none when there is no such
line).  The unamended claim fails on an empty line, which is a
non-comment line that does not split into three fields yet aborts the
loop with IndexError instead of being collected. -/
theorem exec_scan_parse_errors_aggregated (port : Int) (aslog : Bool) (target res : String)
    (es : List ScanEntry) (c : Int)
    (h : processResult port aslog target (some res) = (es, Except.ok c)) :
    es.filter (isErrorEntry target) =
      (if ((splitlines res).filter isBadLine).length > 0 then
        [ScanEntry.error target (parseErrMsg ((splitlines res).filter isBadLine))]
      else []) ∧
    (es.filter isHostDetail).length = ((splitlines res).filter isGoodLine).length := by
  obtain ⟨_, hlen, _, herr, _, _⟩ := processResult_filters port aslog target res es c h
  exact ⟨herr, hlen⟩

/-- Witness for C3's theorem at output `"bad\nh k v"`: the malformed
line "bad" is aggregated into one error entry and only "h k v" yields
a host detail. -/
theorem exec_scan_parse_errors_aggregated_w :
    (processResult 7 false "t3" (some "bad\nh k v")).1.filter (isErrorEntry "t3") =
      (if ((splitlines "bad\nh k v").filter isBadLine).length > 0 then
        [ScanEntry.error "t3" (parseErrMsg ((splitlines "bad\nh k v").filter isBadLine))]
      else []) :=
  (exec_scan_parse_errors_aggregated 7 false "t3" "bad\nh k v"
    (processResult 7 false "t3" (some "bad\nh k v")).1 1 (by decide)).1

/-- C3 counterexample: in output `"x\n\ny1 y2 y3"` the line "x" is a
non-comment line that does not split into three fields, yet no
aggregated error entry is reported and the remaining line "y1 y2 y3"
is never processed: the empty second line raises IndexError first. -/
theorem empty_line_no_parse_error_entry :
    exec_scan ⟨some 7, false⟩ "s3" "t3" (ProcResult.launched 0 "x\n\ny1 y2 y3") =
      ([], Except.error ExecError.indexError) := by decide

/-- C4 (amended): when the external tool exits with a non-zero status,
`subprocess.check_output` raises CalledProcessError, which exec_scan
does not catch: no sink call is made and the captured output is not
parsed.  The wrapper's own statements inspect no exit status, but the
library call it uses does, so this case is distinguished from success,
contrary to the unamended claim. -/
theorem exec_scan_nonzero_exit_raises (port : Int) (aslog : Bool)
    (scan_id target : String) (code : Int) (out : String) (h : code ≠ 0) :
    exec_scan ⟨some port, aslog⟩ scan_id target (ProcResult.launched code out) =
      ([], Except.error ExecError.calledProcessError) := by
  simp [exec_scan, check_output, h]

/-- Witness for C4's theorem at exit status 5. -/
theorem exec_scan_nonzero_exit_raises_w :
    (5 : Int) ≠ 0 ∧
    exec_scan ⟨some 22, false⟩ "s4w" "t4w" (ProcResult.launched 5 "h k v") =
      ([], Except.error ExecError.calledProcessError) :=
  ⟨by decide, exec_scan_nonzero_exit_raises 22 false "s4w" "t4w" 5 "h k v" (by decide)⟩

/-- C4 counterexample: with exit status 1 the very same output yields
no sink calls and a raised CalledProcessError, while with exit status
0 it is parsed into results — non-zero exit is not treated as
success and the output is not parsed. -/
theorem nonzero_exit_not_parsed :
    exec_scan ⟨some 22, false⟩ "s4" "t4" (ProcResult.launched 1 "h ssh-rsa KEY") =
      ([], Except.error ExecError.calledProcessError) ∧
    (exec_scan ⟨some 22, false⟩ "s4" "t4" (ProcResult.launched 0 "h ssh-rsa KEY")).1 ≠
      [] := by decide

/-- C5 (amended): whenever exec_scan returns normally, its exit code
lies in the closed set {1, 2}, and the only failures it surfaces on
that path are surfaced as result records; however — contrary to the
unamended claim — a launch failure (OSError), a non-zero tool exit
(CalledProcessError), a missing sshport option (TypeError) and an
empty output line (IndexError) each escape the executor as exceptions
rather than result records. -/
theorem exec_scan_exit_code_closed (options : ScanOptions) (scan_id target : String)
    (proc : ProcResult) (es : List ScanEntry) (c : Int)
    (h : exec_scan options scan_id target proc = (es, Except.ok c)) :
    c = 1 ∨ c = 2 := by
  left
  rcases options with ⟨sp, aslog⟩
  cases sp with
  | none => simp [exec_scan] at h
  | some port =>
    cases proc with
    | launchFailed => simp [exec_scan, check_output] at h
    | launched code out =>
      by_cases h0 : code = 0
      · rw [show exec_scan ⟨some port, aslog⟩ scan_id target (ProcResult.launched code out) =
            processResult port aslog target (some out) by simp [exec_scan, check_output, h0]] at h
        obtain ⟨_, _, _, _, hc, _⟩ := processResult_ok port aslog target out es c h
        exact hc
      · simp [exec_scan, check_output, h0] at h

/-- Witness for C5's theorem on empty captured output: the executor
returns exit code 1. -/
theorem exec_scan_exit_code_closed_w :
    (exec_scan ⟨some 2, false⟩ "s5w" "w5" (ProcResult.launched 0 "") =
      ([ScanEntry.log "w5" "ssh-keyscan summary" (summaryMsg 0 2)], Except.ok 1)) ∧
    ((1 : Int) = 1 ∨ (1 : Int) = 2) :=
  ⟨by decide, exec_scan_exit_code_closed ⟨some 2, false⟩ "s5w" "w5" (ProcResult.launched 0 "")
    [ScanEntry.log "w5" "ssh-keyscan summary" (summaryMsg 0 2)] 1 (by decide)⟩

/-- C5 counterexample: on output `"a b c\n\n"` the executor issues one
host-detail call and then the empty line makes it raise IndexError past
the executor boundary — a failure that is not surfaced as a result
record and yields no exit code. -/
theorem index_error_escapes_executor :
    exec_scan ⟨some 3, true⟩ "s5" "t5" (ProcResult.launched 0 "a b c\n\n") =
      ([ScanEntry.hostDetail "a" "ssh-key" "3 b c"], Except.error ExecError.indexError) := by
  decide

/-- C6: a line whose first character is `#` is skipped entirely by the
parsing loop: deleting it from the line list changes nothing — no
host-detail record, no parse-error entry, no effect on the key-dump
accumulator `key_data` (hence neither on the dump log nor on the
summary key count). -/
theorem scanLoop_comment_skipped (port : Int) (pre post : List String) (cl : String)
    (h1 : cl.isEmpty = false) (h2 : (cl.front == '#') = true) :
    scanLoop port (pre ++ cl :: post) = scanLoop port (pre ++ post) := by
  induction pre with
  | nil =>
    simp only [List.nil_append, scanLoop]
    rw [if_neg (by simp [h1]), if_pos (by simp [h2])]
  | cons p pre ih =>
    simp only [List.cons_append, scanLoop, List.append_eq]
    rw [ih]

/-- Witness for C6's theorem: the comment line "#x" between a parsed
and a malformed line is invisible to the loop. -/
theorem scanLoop_comment_skipped_w :
    ("#x".isEmpty = false) ∧ (("#x".front == '#') = true) ∧
    scanLoop 9 (["a b c"] ++ "#x" :: ["bad"]) = scanLoop 9 (["a b c"] ++ ["bad"]) :=
  ⟨by decide, by decide, scanLoop_comment_skipped 9 ["a b c"] ["bad"] "#x" (by decide) (by decide)⟩

/-- C7 (amended): when the processing phase completes without raising,
the verbatim key-dump log entry for the target is reported exactly when
the sshkeyaslog option is true, and it then contains exactly the
successfully parsed raw lines joined by newlines in original order;
when the option is false there is no dump entry regardless of how many
keys were found.  The unamended iff fails when the output contains an
empty line: the option may be true and still no dump is reported
because the loop raises IndexError. -/
theorem exec_scan_dump_iff_option (port : Int) (aslog : Bool) (target res : String)
    (es : List ScanEntry) (c : Int)
    (h : processResult port aslog target (some res) = (es, Except.ok c)) :
    es.filter (isDumpLog target) =
      (if aslog then
        [ScanEntry.log target "ssh-keyscan key dump"
          (dumpMsg ((splitlines res).filter isGoodLine))]
      else []) := by
  obtain ⟨_, _, _, _, hdump, _⟩ := processResult_filters port aslog target res es c h
  exact hdump

/-- Witness for C7's theorem with the option enabled at output
`"h k v"`. -/
theorem exec_scan_dump_iff_option_w :
    (processResult 4 true "t7" (some "h k v")).1.filter (isDumpLog "t7") =
      (if true then
        [ScanEntry.log "t7" "ssh-keyscan key dump"
          (dumpMsg ((splitlines "h k v").filter isGoodLine))]
      else []) :=
  exec_scan_dump_iff_option 4 true "t7" "h k v"
    (processResult 4 true "t7" (some "h k v")).1 1 (by decide)

/-- C7 counterexample: sshkeyaslog is true and a key was parsed from
`"h k v\n\n"`, yet no key-dump log entry is reported: the empty line
raises IndexError before the dump is emitted, refuting the claimed
iff. -/
theorem dump_missing_with_option_true :
    (exec_scan ⟨some 22, true⟩ "s7" "t7" (ProcResult.launched 0 "h k v\n\n")).1.filter
      (isDumpLog "t7") = [] := by decide

/-- C8: the availability check returns false exactly when the
executable cannot be launched at all (OSError), and returns true for
every launched process, non-zero exit status (CalledProcessError,
swallowed) included. -/
theorem check_availability :
    check ProcResult.launchFailed = false ∧
    ∀ (code : Int) (out : String), check (ProcResult.launched code out) = true := by
  refine ⟨rfl, ?_⟩
  intro code out
  by_cases h : code = 0 <;> simp [check, check_output, h]

/-- C9: on a null captured result the processing phase reports exactly
two error entries attributed to the target — the generic "a problem
occurred" message and the "result was empty" message, in that order,
and nothing else — performs no line processing, and returns the
failure exit code 2. -/
theorem processResult_none_two_errors (port : Int) (aslog : Bool) (target : String) :
    processResult port aslog target none =
      ([ScanEntry.error target problemMsg, ScanEntry.error target emptyMsg],
        Except.ok 2) := rfl

/-- C10: when the sshport option holds a concrete integer, the tool
launched with exit status 0, and every line of the captured output is
non-empty, line processing is total — the comment check `line[0]`
never faults, nothing in the loop raises — and the executor returns
the success exit code 1. -/
theorem exec_scan_total_nonempty_lines (port : Int) (aslog : Bool)
    (scan_id target out : String)
    (h : ∀ l ∈ splitlines out, l.isEmpty = false) :
    (exec_scan ⟨some port, aslog⟩ scan_id target (ProcResult.launched 0 out)).2 =
      Except.ok 1 := by
  obtain ⟨es0, kd, pe, hs⟩ := scanLoop_total port (splitlines out) h
  simp [exec_scan, check_output, processResult, hs]

/-- Witness for C10's theorem on a two-line output. -/
theorem exec_scan_total_nonempty_lines_w :
    (∀ l ∈ splitlines "h1 ssh-rsa AAAA\nh1 ecdsa BBBB", l.isEmpty = false) ∧
    (exec_scan ⟨some 22, true⟩ "s10" "w10"
      (ProcResult.launched 0 "h1 ssh-rsa AAAA\nh1 ecdsa BBBB")).2 = Except.ok 1 :=
  ⟨by decide, exec_scan_total_nonempty_lines 22 true "s10" "w10"
    "h1 ssh-rsa AAAA\nh1 ecdsa BBBB" (by decide)⟩

end OspdSshKeyscan
